import Mathlib

/-!
Shallow embedding of `src/app.py` (InkChat): a Streamlit document
question-answering app.  Pure Python helpers (`os.path.join`,
`os.path.splitext`) are translated directly; the Streamlit session state,
the working-directory disk and the visible UI output are modelled as an
explicit `World` record threaded through the functions; calls into
external libraries (document loaders, text splitter, Chroma, the OpenAI
chat model and the conversational retrieval chain) are modelled as an
oracle record `Env` whose fallible members return `Except Err`.
A Python exception propagating out of a function is modelled by the
function returning `(w, Except.error e)` with `w` the state at the point
the exception was raised.
-/

namespace InkChat

/-- Errors raised by delegated library / API calls, and Python runtime
errors such as attribute access on a missing session-state key. -/
abbrev Err := String

/-- Index of the last occurrence of `c` in `cs` (tracking the running
index `i` and the best match so far). -/
def lastIdxAux (cs : List Char) (c : Char) (i : Nat) (best : Option Nat) : Option Nat :=
  match cs with
  | [] => best
  | x :: xs => lastIdxAux xs c (i + 1) (if x = c then some i else best)

/-- Python `str.rfind`: index of the last occurrence of `c`, `-1` if absent. -/
def rfind (cs : List Char) (c : Char) : Int :=
  match lastIdxAux cs c 0 none with
  | some i => (i : Int)
  | none => -1

/-- `os.path.splitext` (posixpath): split off the extension at the last
dot of the basename, unless every character of the basename before that
dot is itself a dot (e.g. `".txt"` has no extension). -/
def splitext (p : String) : String × String :=
  let cs := p.toList
  let sepIndex := rfind cs '/'
  let dotIndex := rfind cs '.'
  if dotIndex > sepIndex then
    let start := (sepIndex + 1).toNat
    let d := dotIndex.toNat
    if ((List.range (d - start)).map (fun k => cs.getD (start + k) ' ')).any
        (fun ch => ch ≠ '.') then
      (String.mk (cs.take d), String.mk (cs.drop d))
    else
      (p, "")
  else
    (p, "")

/-- Python `str.startswith`, computed on the character lists. -/
def startswith (s pre : String) : Bool :=
  pre.toList.isPrefixOf s.toList

/-- Python `str.endswith`, computed on the character lists. -/
def endswith (s suf : String) : Bool :=
  suf.toList.isSuffixOf s.toList

/-- `os.path.join a b` (posixpath) for the two-argument case used in the
app: an absolute `b` replaces `a`; otherwise `b` is appended, inserting a
separator unless `a` already ends in one. -/
def osPathJoin (a b : String) : String :=
  if startswith b "/" then b
  else if endswith a "/" ∨ a = "" then a ++ b
  else a ++ "/" ++ b

/-- An uploaded file as Streamlit hands it over: `name` and the byte
content returned by `getvalue()`. -/
structure FileData where
  name : String
  content : List Nat
  deriving DecidableEq, Repr

/-- `langchain.schema.ChatMessage`: a role plus content. -/
structure ChatMessage where
  role : String
  content : String
  deriving DecidableEq, Repr

/-- A document as returned by a langchain loader / splitter. -/
structure Document where
  page_content : String
  deriving DecidableEq, Repr

/-- The three format-specific loaders the app dispatches between,
each holding the path it was constructed with. -/
inductive Loader where
  | pyPDFLoader (path : String)
  | docx2txtLoader (path : String)
  | textLoader (path : String)
  deriving DecidableEq, Repr

/-- `OpenAIEmbeddings(openai_api_key=...)`. -/
structure OpenAIEmbeddings where
  openai_api_key : String
  deriving DecidableEq, Repr

/-- An opaque handle to the vector store built by `Chroma.from_documents`. -/
structure VectorStore where
  id : Nat
  deriving DecidableEq, Repr

/-- The retriever obtained from `vector_store.as_retriever()`. -/
structure Retriever where
  store : VectorStore
  deriving DecidableEq, Repr

def VectorStore.as_retriever (vs : VectorStore) : Retriever := ⟨vs⟩

/-- The `ChatOpenAI` client configuration as constructed in the app
(callbacks are modelled on the oracle side). -/
structure ChatOpenAI where
  model : Option String
  temperature : Option Int
  openai_api_key : String
  streaming : Bool
  deriving DecidableEq, Repr

/-- `ConversationalRetrievalChain.from_llm(llm, retriever)`. -/
structure ConversationalRetrievalChain where
  llm : ChatOpenAI
  retriever : Retriever
  deriving DecidableEq, Repr

def ConversationalRetrievalChain.from_llm (llm : ChatOpenAI) (r : Retriever) :
    ConversationalRetrievalChain := ⟨llm, r⟩

/-- Observable side effects of one script run, in order. -/
inductive Event where
  | diskWrite (path : String) (bytes : List Nat)
  | uiWrite (msg : String)
  | uiSuccess (msg : String)
  | uiInfo (msg : String)
  | loadCall (l : Loader)
  | splitCall
  | embedStoreCall
  | crcRunCall
  | llmInvokeCall
  | chatDisplay (role content : String)
  | streamDisplay (text : String)
  deriving DecidableEq, Repr

/-- `st.session_state`: the keys the app reads or writes.  `none` models
the key being absent. -/
structure SessionState where
  crc : Option ConversationalRetrievalChain
  history : Option (List (String × String))
  messages : Option (List ChatMessage)
  deriving DecidableEq, Repr

/-- The mutable world a script run threads: session state, the files in
the working directory, and the log of observable effects. -/
structure World where
  session : SessionState
  disk : List (String × List Nat)
  events : List Event
  deriving DecidableEq, Repr

def logEvent (w : World) (e : Event) : World :=
  { w with events := w.events ++ [e] }

/-- `open(path, "wb"); f.write(bytes)`: create or overwrite `path`. -/
def diskStore (d : List (String × List Nat)) (p : String) (b : List Nat) :
    List (String × List Nat) :=
  (p, b) :: d.filter (fun kv => kv.1 != p)

def diskLookup (d : List (String × List Nat)) (p : String) : Option (List Nat) :=
  (d.find? (fun kv => kv.1 == p)).map (·.2)

/-- The delegated library / API calls, as oracles.  Fallible members
return `Except Err` to model a raised exception. -/
structure Env where
  loaderLoad : Loader → Except Err (List Document)
  splitDocuments : Nat → Nat → List Document → List Document
  chromaFromDocuments : List Document → OpenAIEmbeddings → Except Err VectorStore
  crcRun : ConversationalRetrievalChain → String → List (String × String) →
      Except Err String
  llmInvoke : ChatOpenAI → List ChatMessage → Except Err (List String × String)

/-- `StreamHandler`: accumulated `text` plus the sequence of
`container.markdown` calls it has made. -/
structure StreamHandler where
  markdownCalls : List String
  text : String
  deriving DecidableEq, Repr

/-- `StreamHandler(container, initial_text="")`. -/
def StreamHandler.init (initial_text : String) : StreamHandler :=
  { markdownCalls := [], text := initial_text }

/-- `on_llm_new_token`: append the token to `text` and re-render. -/
def StreamHandler.on_llm_new_token (sh : StreamHandler) (token : String) :
    StreamHandler :=
  { markdownCalls := sh.markdownCalls ++ [sh.text ++ token],
    text := sh.text ++ token }

/-- Deliver a list of tokens to the handler in order. -/
def StreamHandler.feed (sh : StreamHandler) (tokens : List String) : StreamHandler :=
  tokens.foldl StreamHandler.on_llm_new_token sh

/-- Concatenation of a token list in delivery order. -/
def catStrings : List String → String
  | [] => ""
  | t :: ts => t ++ catStrings ts

/-- The tail of `load_and_process_file` after a loader has been chosen:
`documents = loader.load()`, the `RecursiveCharacterTextSplitter` with
`chunk_size=1000, chunk_overlap=200`, `OpenAIEmbeddings` and
`Chroma.from_documents`. -/
def loadRest (env : Env) (loader : Loader) (openai_api_key : String) (w : World) :
    World × Except Err (Option VectorStore) :=
  let w := logEvent w (.loadCall loader)
  match env.loaderLoad loader with
  | .error e => (w, .error e)
  | .ok documents =>
    let w := logEvent w .splitCall
    let chunks := env.splitDocuments 1000 200 documents
    let embeddings : OpenAIEmbeddings := { openai_api_key := openai_api_key }
    let w := logEvent w .embedStoreCall
    match env.chromaFromDocuments chunks embeddings with
    | .error e => (w, .error e)
    | .ok vector_store => (w, .ok (some vector_store))

/-- `load_and_process_file(file_data, openai_api_key)`: write the bytes
to `./<name>`, dispatch on the extension (`.pdf` / `.docx` / `.txt`,
otherwise report "This document format is not supported!" and return
`None`), then load, split, embed and store. -/
def load_and_process_file (env : Env) (file_data : FileData)
    (openai_api_key : String) (w : World) :
    World × Except Err (Option VectorStore) :=
  let file_name := osPathJoin "./" file_data.name
  let w := logEvent { w with disk := diskStore w.disk file_name file_data.content }
      (.diskWrite file_name file_data.content)
  let extension := (splitext file_name).2
  if extension = ".pdf" then
    loadRest env (.pyPDFLoader file_name) openai_api_key w
  else if extension = ".docx" then
    loadRest env (.docx2txtLoader file_name) openai_api_key w
  else if extension = ".txt" then
    loadRest env (.textLoader file_name) openai_api_key w
  else
    (logEvent w (.uiWrite "This document format is not supported!"), .ok none)

/-- Embeds `initialize_chat_model(vector_store, openai_api_key)`:
a `ChatOpenAI` with `model="gpt-3.5-turbo", temperature=0` and the
chain over the store's retriever. -/
def init_chat_model (vector_store : VectorStore) (openai_api_key : String) :
    ConversationalRetrievalChain :=
  let llm : ChatOpenAI :=
    { model := some "gpt-3.5-turbo", temperature := some 0,
      openai_api_key := openai_api_key, streaming := false }
  ConversationalRetrievalChain.from_llm llm vector_store.as_retriever

/-- `handle_question(question, openai_api_key)`: read `crc` from session
state (raising if absent), default `history` to `[]`, run the retrieval
chain over the question and history, append the `(question, response)`
pair to history, re-display the messages, then stream a fresh
`ChatOpenAI(streaming=True)` invocation over the messages through a
`StreamHandler` and append its answer to the messages. -/
def handle_question (env : Env) (question : String) (openai_api_key : String)
    (w : World) : World × Except Err Unit :=
  match w.session.crc with
  | none => (w, .error "AttributeError: st.session_state has no attribute crc")
  | some crc =>
    let history := w.session.history.getD []
    let w := { w with session := { w.session with history := some history } }
    let w := logEvent w .crcRunCall
    match env.crcRun crc question history with
    | .error e => (w, .error e)
    | .ok response =>
      let w := { w with session :=
        { w.session with history := some (history ++ [(question, response)]) } }
      match w.session.messages with
      | none => (w, .error "AttributeError: st.session_state has no attribute messages")
      | some msgs =>
        let w := { w with events :=
          w.events ++ msgs.map (fun m => Event.chatDisplay m.role m.content) }
        let stream_handler := StreamHandler.init ""
        let llm : ChatOpenAI :=
          { model := none, temperature := none,
            openai_api_key := openai_api_key, streaming := true }
        let w := logEvent w .llmInvokeCall
        match env.llmInvoke llm msgs with
        | .error e => (w, .error e)
        | .ok (tokens, content) =>
          let sh := stream_handler.feed tokens
          let w := logEvent w (.streamDisplay sh.text)
          let w := { w with session := { w.session with
            messages := some (msgs ++ [{ role := "assistant", content := content }]) } }
          (w, .ok ())

/-- Lines 95-108 of `main`: if a file is uploaded and the key starts
with "sk-", process it and on a truthy store install the chain under the
session key `crc`. -/
def mainUploadPhase (env : Env) (uploaded_file : Option FileData)
    (openai_api_key : String) (w : World) : World × Except Err Unit :=
  match uploaded_file with
  | none => (w, .ok ())
  | some f =>
    if startswith openai_api_key "sk-" then
      match load_and_process_file env f openai_api_key w with
      | (w, .error e) => (w, .error e)
      | (w, .ok none) => (w, .ok ())
      | (w, .ok (some vector_store)) =>
        let crc := init_chat_model vector_store openai_api_key
        let w := { w with session := { w.session with crc := some crc } }
        (logEvent w (.uiSuccess "File processed successfully!"), .ok ())
    else (w, .ok ())

/-- Lines 110-124 of `main`: when `crc` is in session state, reset the
messages list to the single assistant greeting, then on a chat prompt
append the user message, echo it, and call `handle_question`. -/
def mainChatPhase (env : Env) (prompt : Option String) (openai_api_key : String)
    (w : World) : World × Except Err Unit :=
  match w.session.crc with
  | none => (w, .ok ())
  | some _ =>
    let w := { w with session := { w.session with
      messages := some [{ role := "assistant", content := "How can I help you?" }] } }
    match prompt with
    | none => (w, .ok ())
    | some p =>
      let w := { w with session := { w.session with
        messages := some ((w.session.messages.getD []) ++
          [{ role := "user", content := p }]) } }
      let w := logEvent w (.chatDisplay "user" p)
      handle_question env p openai_api_key w

/-- The sidebar (lines 16-20): prompt for the key, and show an info
message when it is empty (falsy). -/
def sidebarEvents (openai_api_key : String) : List Event :=
  if openai_api_key = "" then [.uiInfo "Please add your OpenAI API key to continue."]
  else []

/-- One whole script run of `main` (with the module-level sidebar):
upload phase, then — unless it raised — the chat phase. -/
def mainStep (env : Env) (uploaded_file : Option FileData) (prompt : Option String)
    (openai_api_key : String) (w : World) : World × Except Err Unit :=
  let w := { w with events := w.events ++ sidebarEvents openai_api_key }
  match mainUploadPhase env uploaded_file openai_api_key w with
  | (w, .error e) => (w, .error e)
  | (w, .ok ()) => mainChatPhase env prompt openai_api_key w

/-- The last streamed display rendered during a run, if any. -/
def lastStream (events : List Event) : Option String :=
  (events.filterMap (fun e => match e with
    | .streamDisplay t => some t
    | _ => none)).getLast?

/-- Is an event a disk write? -/
def isDiskEv : Event → Bool
  | .diskWrite _ _ => true
  | _ => false

/-- The markdown renders produced by feeding a token list, starting from
accumulated text `s`: after each token the whole accumulated text is
re-rendered. -/
def mkCalls (s : String) : List String → List String
  | [] => []
  | t :: ts => (s ++ t) :: mkCalls (s ++ t) ts

/- ### Concrete fixtures for evaluating the model on closed inputs -/

/-- A concrete oracle in which every delegated call succeeds.  The
retrieval chain and the fresh streaming chat model are distinct requests,
so they answer differently, as the hosted API may. -/
def envW : Env :=
  { loaderLoad := fun _ => .ok [{ page_content := "hello world" }],
    splitDocuments := fun _ _ ds => ds,
    chromaFromDocuments := fun _ _ => .ok { id := 37 },
    crcRun := fun _ q _ => .ok ("chain answer to " ++ q),
    llmInvoke := fun _ _ => .ok (["stream", "ed answer"], "streamed answer") }

/-- A concrete oracle in which every delegated API call raises. -/
def envE : Env :=
  { loaderLoad := fun _ => .error "APIError: loader",
    splitDocuments := fun _ _ ds => ds,
    chromaFromDocuments := fun _ _ => .error "APIError: embeddings",
    crcRun := fun _ _ _ => .error "RateLimitError",
    llmInvoke := fun _ _ => .error "RateLimitError" }

/-- An empty world: fresh session state, empty working directory. -/
def w0 : World :=
  { session := { crc := none, history := none, messages := none },
    disk := [], events := [] }

/-- A concrete oracle in which loading succeeds but the embedding /
vector-store construction raises. -/
def envE2 : Env :=
  { envE with loaderLoad := fun _ => .ok [{ page_content := "hello world" }] }

/-- A chain handle as `main` would have installed it. -/
def crc0 : ConversationalRetrievalChain := init_chat_model { id := 37 } "sk-test"

/-- A world mid-conversation: chain installed, greeting shown, but the
`history` key not yet created. -/
def wChat : World :=
  { session :=
      { crc := some crc0,
        history := none,
        messages := some [{ role := "assistant", content := "How can I help you?" },
                          { role := "user", content := "What does the file say?" }] },
    disk := [], events := [] }

/- ### Helper lemmas -/

theorem feed_text (ts : List String) : ∀ sh : StreamHandler,
    (sh.feed ts).text = sh.text ++ catStrings ts := by
  induction ts with
  | nil => intro sh; simp [StreamHandler.feed, catStrings]
  | cons t ts ih =>
    intro sh
    show (StreamHandler.feed (sh.on_llm_new_token t) ts).text = _
    rw [ih]
    simp [StreamHandler.on_llm_new_token, catStrings, String.append_assoc]

theorem feed_markdownCalls (ts : List String) : ∀ sh : StreamHandler,
    (sh.feed ts).markdownCalls = sh.markdownCalls ++ mkCalls sh.text ts := by
  induction ts with
  | nil => intro sh; simp [StreamHandler.feed, mkCalls]
  | cons t ts ih =>
    intro sh
    show (StreamHandler.feed (sh.on_llm_new_token t) ts).markdownCalls = _
    rw [ih]
    simp [StreamHandler.on_llm_new_token, mkCalls]

theorem mkCalls_get (ts : List String) : ∀ (s : String) (n : Nat), n < ts.length →
    (mkCalls s ts).get? n = some (s ++ catStrings (ts.take (n + 1))) := by
  induction ts with
  | nil => intro s n h; simp at h
  | cons t ts ih =>
    intro s n h
    match n with
    | 0 => simp [mkCalls, catStrings]
    | Nat.succ m =>
      have hm : m < ts.length := by simpa using h
      show (mkCalls (s ++ t) ts).get? m = _
      rw [ih (s ++ t) m hm]
      simp [catStrings, String.append_assoc]

theorem loadRest_session (env : Env) (l : Loader) (key : String) (w : World) :
    (loadRest env l key w).1.session = w.session := by
  simp only [loadRest, logEvent]
  cases h1 : env.loaderLoad l with
  | error e => simp
  | ok docs =>
    cases h2 : env.chromaFromDocuments (env.splitDocuments 1000 200 docs)
        { openai_api_key := key } with
    | error e => simp [h2]
    | ok vs => simp [h2]

theorem loadRest_disk (env : Env) (l : Loader) (key : String) (w : World) :
    (loadRest env l key w).1.disk = w.disk := by
  simp only [loadRest, logEvent]
  cases h1 : env.loaderLoad l with
  | error e => simp
  | ok docs =>
    cases h2 : env.chromaFromDocuments (env.splitDocuments 1000 200 docs)
        { openai_api_key := key } with
    | error e => simp [h2]
    | ok vs => simp [h2]

theorem loadRest_events_diskFilter (env : Env) (l : Loader) (key : String) (w : World) :
    ((loadRest env l key w).1.events).filter isDiskEv = w.events.filter isDiskEv := by
  simp only [loadRest, logEvent]
  cases h1 : env.loaderLoad l with
  | error e => simp [isDiskEv]
  | ok docs =>
    cases h2 : env.chromaFromDocuments (env.splitDocuments 1000 200 docs)
        { openai_api_key := key } with
    | error e => simp [h2, isDiskEv]
    | ok vs => simp [h2, isDiskEv]

theorem loadRest_ok (env : Env) (l : Loader) (key : String) (w : World)
    (docs : List Document) (vs : VectorStore)
    (h1 : env.loaderLoad l = .ok docs)
    (h2 : env.chromaFromDocuments (env.splitDocuments 1000 200 docs)
        { openai_api_key := key } = .ok vs) :
    loadRest env l key w =
      ({ w with events := w.events ++ [.loadCall l, .splitCall, .embedStoreCall] },
        .ok (some vs)) := by
  simp [loadRest, h1, h2, logEvent]

theorem loadRest_load_error (env : Env) (l : Loader) (key : String) (w : World)
    (e : Err) (h1 : env.loaderLoad l = .error e) :
    loadRest env l key w =
      ({ w with events := w.events ++ [.loadCall l] }, .error e) := by
  simp [loadRest, h1, logEvent]

theorem loadRest_chroma_error (env : Env) (l : Loader) (key : String) (w : World)
    (docs : List Document) (e : Err)
    (h1 : env.loaderLoad l = .ok docs)
    (h2 : env.chromaFromDocuments (env.splitDocuments 1000 200 docs)
        { openai_api_key := key } = .error e) :
    loadRest env l key w =
      ({ w with events := w.events ++ [.loadCall l, .splitCall, .embedStoreCall] },
        .error e) := by
  simp [loadRest, h1, h2, logEvent]

theorem load_session (env : Env) (f : FileData) (key : String) (w : World) :
    (load_and_process_file env f key w).1.session = w.session := by
  simp only [load_and_process_file]
  split_ifs with h1 h2 h3
  all_goals simp [loadRest_session, logEvent]

theorem load_disk (env : Env) (f : FileData) (key : String) (w : World) :
    (load_and_process_file env f key w).1.disk =
      diskStore w.disk (osPathJoin "./" f.name) f.content := by
  simp only [load_and_process_file]
  split_ifs with h1 h2 h3
  all_goals simp [loadRest_disk, logEvent]

theorem load_events_diskFilter (env : Env) (f : FileData) (key : String) (w : World) :
    ((load_and_process_file env f key w).1.events).filter isDiskEv =
      w.events.filter isDiskEv ++
        [.diskWrite (osPathJoin "./" f.name) f.content] := by
  simp only [load_and_process_file]
  split_ifs with h1 h2 h3
  all_goals simp [loadRest_events_diskFilter, logEvent, isDiskEv]

theorem load_dispatch_pdf (env : Env) (f : FileData) (key : String) (w : World)
    (h : (splitext (osPathJoin "./" f.name)).2 = ".pdf") :
    load_and_process_file env f key w =
      loadRest env (.pyPDFLoader (osPathJoin "./" f.name)) key
        (logEvent { w with disk := diskStore w.disk (osPathJoin "./" f.name) f.content }
          (.diskWrite (osPathJoin "./" f.name) f.content)) := by
  simp [load_and_process_file, h]

theorem load_dispatch_docx (env : Env) (f : FileData) (key : String) (w : World)
    (h : (splitext (osPathJoin "./" f.name)).2 = ".docx") :
    load_and_process_file env f key w =
      loadRest env (.docx2txtLoader (osPathJoin "./" f.name)) key
        (logEvent { w with disk := diskStore w.disk (osPathJoin "./" f.name) f.content }
          (.diskWrite (osPathJoin "./" f.name) f.content)) := by
  simp [load_and_process_file, h]

theorem load_dispatch_txt (env : Env) (f : FileData) (key : String) (w : World)
    (h : (splitext (osPathJoin "./" f.name)).2 = ".txt") :
    load_and_process_file env f key w =
      loadRest env (.textLoader (osPathJoin "./" f.name)) key
        (logEvent { w with disk := diskStore w.disk (osPathJoin "./" f.name) f.content }
          (.diskWrite (osPathJoin "./" f.name) f.content)) := by
  simp [load_and_process_file, h]

theorem load_dispatch_unsupported (env : Env) (f : FileData) (key : String) (w : World)
    (h1 : (splitext (osPathJoin "./" f.name)).2 ≠ ".pdf")
    (h2 : (splitext (osPathJoin "./" f.name)).2 ≠ ".docx")
    (h3 : (splitext (osPathJoin "./" f.name)).2 ≠ ".txt") :
    load_and_process_file env f key w =
      ({ w with disk := diskStore w.disk (osPathJoin "./" f.name) f.content,
                events := w.events ++
                  [.diskWrite (osPathJoin "./" f.name) f.content,
                   .uiWrite "This document format is not supported!"] },
        .ok none) := by
  simp [load_and_process_file, h1, h2, h3, logEvent]

theorem handle_question_ok (env : Env) (q key : String) (w : World)
    (c : ConversationalRetrievalChain) (msgs : List ChatMessage)
    (resp : String) (tokens : List String) (content : String)
    (hc : w.session.crc = some c)
    (hm : w.session.messages = some msgs)
    (hr : env.crcRun c q (w.session.history.getD []) = .ok resp)
    (hl : env.llmInvoke
        { model := none, temperature := none, openai_api_key := key, streaming := true }
        msgs = .ok (tokens, content)) :
    handle_question env q key w =
      ({ session :=
           { crc := w.session.crc,
             history := some (w.session.history.getD [] ++ [(q, resp)]),
             messages := some (msgs ++ [{ role := "assistant", content := content }]) },
         disk := w.disk,
         events := w.events ++ [.crcRunCall] ++
           msgs.map (fun m => .chatDisplay m.role m.content) ++
           [.llmInvokeCall,
            .streamDisplay ((StreamHandler.init "").feed tokens).text] },
       .ok ()) := by
  simp [handle_question, hc, hm, hr, hl, logEvent]

theorem handle_question_crcRun_error (env : Env) (q key : String) (w : World)
    (c : ConversationalRetrievalChain) (e : Err)
    (hc : w.session.crc = some c)
    (hr : env.crcRun c q (w.session.history.getD []) = .error e) :
    handle_question env q key w =
      ({ w with
         session := { w.session with history := some (w.session.history.getD []) },
         events := w.events ++ [.crcRunCall] },
       .error e) := by
  simp [handle_question, hc, hr, logEvent]

theorem lastStream_snoc (l : List Event) (t : String) :
    lastStream (l ++ [.streamDisplay t]) = some t := by
  simp [lastStream, List.filterMap_append]

theorem handle_question_disk (env : Env) (q key : String) (w : World) :
    (handle_question env q key w).1.disk = w.disk := by
  simp only [handle_question, logEvent]
  cases hc : w.session.crc with
  | none => simp
  | some c =>
    cases hr : env.crcRun c q (w.session.history.getD []) with
    | error e => simp [hr]
    | ok resp =>
      cases hm : w.session.messages with
      | none => simp [hr, hm]
      | some msgs =>
        cases hl : env.llmInvoke
            { model := none, temperature := none,
              openai_api_key := key, streaming := true } msgs with
        | error e => simp [hr, hm, hl]
        | ok tc =>
          obtain ⟨tokens, content⟩ := tc
          simp [hr, hm, hl]

theorem mainChatPhase_disk (env : Env) (prompt : Option String) (key : String)
    (w : World) : (mainChatPhase env prompt key w).1.disk = w.disk := by
  simp only [mainChatPhase, logEvent]
  cases hc : w.session.crc with
  | none => simp
  | some c =>
    cases prompt with
    | none => simp
    | some p => simp [handle_question_disk]

/- ### Claims -/

/-- C7: For every initial text `s` and every sequence of tokens delivered
to `StreamHandler.on_llm_new_token` in order, the displayed text after the
`n`-th call is `s` concatenated with the first `n` tokens in delivery
order: the accumulated text is `s` followed by all tokens, and the `n`-th
markdown render shows `s` followed by the first `n+1` tokens — no token
dropped, reordered or duplicated. -/
theorem C7_stream_token_accumulation (s : String) (ts : List String) :
    ((StreamHandler.init s).feed ts).text = s ++ catStrings ts ∧
    ∀ n : Nat, n < ts.length →
      ((StreamHandler.init s).feed ts).markdownCalls.get? n =
        some (s ++ catStrings (ts.take (n + 1))) := by
  constructor
  · rw [feed_text]; rfl
  · intro n hn
    rw [feed_markdownCalls]
    simpa [StreamHandler.init] using mkCalls_get ts s n hn

/-- Witness for C7 at initial text `"Hi "` and tokens `["a", "b"]`,
inspecting the second markdown render. -/
theorem C7_witness :
    ((StreamHandler.init "Hi ").feed ["a", "b"]).text = "Hi " ++ catStrings ["a", "b"] ∧
    (1 < (["a", "b"] : List String).length ∧
      ((StreamHandler.init "Hi ").feed ["a", "b"]).markdownCalls.get? 1 =
        some ("Hi " ++ catStrings (["a", "b"].take 2))) :=
  ⟨(C7_stream_token_accumulation "Hi " ["a", "b"]).1,
   by decide,
   (C7_stream_token_accumulation "Hi " ["a", "b"]).2 1 (by decide)⟩

/-- C2: For every uploaded file whose computed extension is none of
`.pdf`, `.docx`, `.txt`, `load_and_process_file` reports the
unsupported-format message and returns `None`; no loader, splitter or
embedding/vector-store call happens (the only effects are the disk copy
and the UI message), session state is untouched, and `main` stores no
`crc` handle for that file. -/
theorem C2_unsupported_format_halts (env : Env) (f : FileData) (key : String)
    (w : World)
    (h1 : (splitext (osPathJoin "./" f.name)).2 ≠ ".pdf")
    (h2 : (splitext (osPathJoin "./" f.name)).2 ≠ ".docx")
    (h3 : (splitext (osPathJoin "./" f.name)).2 ≠ ".txt") :
    (load_and_process_file env f key w).2 = .ok none ∧
    (load_and_process_file env f key w).1.session = w.session ∧
    (load_and_process_file env f key w).1.events =
      w.events ++ [.diskWrite (osPathJoin "./" f.name) f.content,
                   .uiWrite "This document format is not supported!"] ∧
    (mainUploadPhase env (some f) key w).1.session.crc = w.session.crc := by
  have hL := load_dispatch_unsupported env f key w h1 h2 h3
  refine ⟨by rw [hL], by rw [hL], by rw [hL], ?_⟩
  by_cases hk : startswith key "sk-" = true
  · simp [mainUploadPhase, hk, hL]
  · simp [mainUploadPhase, hk]

/-- Witness for C2: uploading `data.csv` (extension `.csv`) with a valid
key against the all-succeeding oracle. -/
theorem C2_witness :
    ((splitext (osPathJoin "./" (FileData.mk "data.csv" [0, 1, 2]).name)).2 ≠ ".pdf" ∧
     (splitext (osPathJoin "./" (FileData.mk "data.csv" [0, 1, 2]).name)).2 ≠ ".docx" ∧
     (splitext (osPathJoin "./" (FileData.mk "data.csv" [0, 1, 2]).name)).2 ≠ ".txt") ∧
    (load_and_process_file envW (FileData.mk "data.csv" [0, 1, 2]) "sk-test" w0).2 =
      .ok none ∧
    (mainUploadPhase envW (some (FileData.mk "data.csv" [0, 1, 2])) "sk-test"
        w0).1.session.crc = w0.session.crc := by
  have h := C2_unsupported_format_halts envW (FileData.mk "data.csv" [0, 1, 2])
    "sk-test" w0 (by decide) (by decide) (by decide)
  exact ⟨⟨by decide, by decide, by decide⟩, h.1, h.2.2.2⟩

/-- C9: Processing is gated on the key prefix: with a key that does not
start with `"sk-"` (in particular the empty key), the upload block of
`main` does nothing at all — no file write, no processing, no change to
session state. -/
theorem C9_api_key_gating (env : Env) (f : FileData) (key : String) (w : World)
    (h : startswith key "sk-" = false) :
    mainUploadPhase env (some f) key w = (w, .ok ()) := by
  simp [mainUploadPhase, h]

/-- Witness for C9: an empty key and a non-`sk-` key both leave the world
untouched. -/
theorem C9_witness :
    (startswith "" "sk-" = false ∧
      mainUploadPhase envW (some (FileData.mk "notes.txt" [7])) "" w0 = (w0, .ok ())) ∧
    (startswith "key-123" "sk-" = false ∧
      mainUploadPhase envW (some (FileData.mk "notes.txt" [7])) "key-123" w0 =
        (w0, .ok ())) :=
  ⟨⟨by decide, C9_api_key_gating envW (FileData.mk "notes.txt" [7]) "" w0 (by decide)⟩,
   ⟨by decide, C9_api_key_gating envW (FileData.mk "notes.txt" [7]) "key-123" w0
      (by decide)⟩⟩

/-- C10: On every rerun in which a `crc` handle exists in session state,
the chat phase of `main` resets the messages list to the single assistant
greeting before reading the chat input: its outcome is independent of
whatever messages were stored before, and with no prompt the messages list
is exactly the greeting. -/
theorem C10_messages_reset_on_rerun (env : Env) (prompt : Option String)
    (key : String) (w : World) (c : ConversationalRetrievalChain)
    (ms : Option (List ChatMessage))
    (hc : w.session.crc = some c) :
    mainChatPhase env prompt key
        { w with session := { w.session with messages := ms } } =
      mainChatPhase env prompt key w ∧
    (mainChatPhase env none key w).1.session.messages =
      some [{ role := "assistant", content := "How can I help you?" }] := by
  constructor
  · cases prompt <;> simp [mainChatPhase, hc]
  · simp [mainChatPhase, hc]

/-- Witness for C10: a session that carried stale messages is
indistinguishable, after the chat phase, from one that carried none, and
the rerun shows exactly the greeting. -/
theorem C10_witness :
    wChat.session.crc = some crc0 ∧
    mainChatPhase envW none "sk-test"
        { wChat with session := { wChat.session with messages := none } } =
      mainChatPhase envW none "sk-test" wChat ∧
    (mainChatPhase envW none "sk-test" wChat).1.session.messages =
      some [{ role := "assistant", content := "How can I help you?" }] :=
  ⟨by decide,
   (C10_messages_reset_on_rerun envW none "sk-test" wChat crc0 none (by decide)).1,
   (C10_messages_reset_on_rerun envW none "sk-test" wChat crc0 none (by decide)).2⟩

/-- C4: Uploading a `.txt` file with an `sk-` key, when the delegated
loader and embedding calls succeed, makes `load_and_process_file` return a
non-`None` vector store and makes `main` store the
`ConversationalRetrievalChain` under the session key `crc`. -/
theorem C4_txt_upload_populates_crc (env : Env) (f : FileData) (key : String)
    (w : World) (docs : List Document) (vs : VectorStore)
    (ht : (splitext (osPathJoin "./" f.name)).2 = ".txt")
    (hk : startswith key "sk-" = true)
    (hl : env.loaderLoad (.textLoader (osPathJoin "./" f.name)) = .ok docs)
    (hch : env.chromaFromDocuments (env.splitDocuments 1000 200 docs)
        { openai_api_key := key } = .ok vs) :
    (load_and_process_file env f key w).2 = .ok (some vs) ∧
    (mainUploadPhase env (some f) key w).2 = .ok () ∧
    (mainUploadPhase env (some f) key w).1.session.crc =
      some (init_chat_model vs key) := by
  have hL := (load_dispatch_txt env f key w ht).trans
    (loadRest_ok env (.textLoader (osPathJoin "./" f.name)) key _ docs vs hl hch)
  refine ⟨by rw [hL], ?_, ?_⟩ <;> simp [mainUploadPhase, hk, hL, logEvent]

/-- Witness for C4: uploading `notes.txt` with key `sk-test` against the
all-succeeding oracle installs the chain. -/
theorem C4_witness :
    ((splitext (osPathJoin "./" "notes.txt")).2 = ".txt" ∧
      startswith "sk-test" "sk-" = true) ∧
    (load_and_process_file envW (FileData.mk "notes.txt" [104, 105]) "sk-test" w0).2 =
      .ok (some { id := 37 }) ∧
    (mainUploadPhase envW (some (FileData.mk "notes.txt" [104, 105])) "sk-test"
        w0).1.session.crc = some (init_chat_model { id := 37 } "sk-test") := by
  have h := C4_txt_upload_populates_crc envW (FileData.mk "notes.txt" [104, 105])
    "sk-test" w0 [{ page_content := "hello world" }] { id := 37 }
    (by decide) (by decide) rfl rfl
  exact ⟨⟨by decide, by decide⟩, h.1, h.2.2⟩

/-- C5: The loader is picked by file extension — `.pdf` selects
`PyPDFLoader`, `.docx` selects `Docx2txtLoader`, `.txt` selects
`TextLoader` — and on a successful run the effects happen in the order
disk write, loader dispatch and load, split, embed-and-store. -/
theorem C5_loader_dispatch_by_extension (env : Env) (f : FileData) (key : String)
    (w : World) (docs : List Document) (vs : VectorStore) :
    ((splitext (osPathJoin "./" f.name)).2 = ".pdf" →
      env.loaderLoad (.pyPDFLoader (osPathJoin "./" f.name)) = .ok docs →
      env.chromaFromDocuments (env.splitDocuments 1000 200 docs)
          { openai_api_key := key } = .ok vs →
      load_and_process_file env f key w =
        ({ w with disk := diskStore w.disk (osPathJoin "./" f.name) f.content,
                  events := w.events ++
                    [.diskWrite (osPathJoin "./" f.name) f.content,
                     .loadCall (.pyPDFLoader (osPathJoin "./" f.name)),
                     .splitCall, .embedStoreCall] }, .ok (some vs))) ∧
    ((splitext (osPathJoin "./" f.name)).2 = ".docx" →
      env.loaderLoad (.docx2txtLoader (osPathJoin "./" f.name)) = .ok docs →
      env.chromaFromDocuments (env.splitDocuments 1000 200 docs)
          { openai_api_key := key } = .ok vs →
      load_and_process_file env f key w =
        ({ w with disk := diskStore w.disk (osPathJoin "./" f.name) f.content,
                  events := w.events ++
                    [.diskWrite (osPathJoin "./" f.name) f.content,
                     .loadCall (.docx2txtLoader (osPathJoin "./" f.name)),
                     .splitCall, .embedStoreCall] }, .ok (some vs))) ∧
    ((splitext (osPathJoin "./" f.name)).2 = ".txt" →
      env.loaderLoad (.textLoader (osPathJoin "./" f.name)) = .ok docs →
      env.chromaFromDocuments (env.splitDocuments 1000 200 docs)
          { openai_api_key := key } = .ok vs →
      load_and_process_file env f key w =
        ({ w with disk := diskStore w.disk (osPathJoin "./" f.name) f.content,
                  events := w.events ++
                    [.diskWrite (osPathJoin "./" f.name) f.content,
                     .loadCall (.textLoader (osPathJoin "./" f.name)),
                     .splitCall, .embedStoreCall] }, .ok (some vs))) := by
  refine ⟨fun h hl hch => ?_, fun h hl hch => ?_, fun h hl hch => ?_⟩
  · rw [load_dispatch_pdf env f key w h,
      loadRest_ok env _ key _ docs vs hl hch]
    simp [logEvent]
  · rw [load_dispatch_docx env f key w h,
      loadRest_ok env _ key _ docs vs hl hch]
    simp [logEvent]
  · rw [load_dispatch_txt env f key w h,
      loadRest_ok env _ key _ docs vs hl hch]
    simp [logEvent]

/-- Witness for C5: each of `paper.pdf`, `memo.docx`, `notes.txt`
selects its loader, with effects in dispatch order. -/
theorem C5_witness :
    load_and_process_file envW (FileData.mk "paper.pdf" [1]) "sk-test" w0 =
      ({ w0 with disk := diskStore w0.disk "./paper.pdf" [1],
                 events := w0.events ++
                   [.diskWrite "./paper.pdf" [1],
                    .loadCall (.pyPDFLoader "./paper.pdf"),
                    .splitCall, .embedStoreCall] }, .ok (some { id := 37 })) ∧
    load_and_process_file envW (FileData.mk "memo.docx" [2]) "sk-test" w0 =
      ({ w0 with disk := diskStore w0.disk "./memo.docx" [2],
                 events := w0.events ++
                   [.diskWrite "./memo.docx" [2],
                    .loadCall (.docx2txtLoader "./memo.docx"),
                    .splitCall, .embedStoreCall] }, .ok (some { id := 37 })) ∧
    load_and_process_file envW (FileData.mk "notes.txt" [3]) "sk-test" w0 =
      ({ w0 with disk := diskStore w0.disk "./notes.txt" [3],
                 events := w0.events ++
                   [.diskWrite "./notes.txt" [3],
                    .loadCall (.textLoader "./notes.txt"),
                    .splitCall, .embedStoreCall] }, .ok (some { id := 37 })) := by
  refine ⟨?_, ?_, ?_⟩
  · have h := (C5_loader_dispatch_by_extension envW (FileData.mk "paper.pdf" [1])
      "sk-test" w0 [{ page_content := "hello world" }] { id := 37 }).1
      (by decide) rfl rfl
    simpa using h
  · have h := (C5_loader_dispatch_by_extension envW (FileData.mk "memo.docx" [2])
      "sk-test" w0 [{ page_content := "hello world" }] { id := 37 }).2.1
      (by decide) rfl rfl
    simpa using h
  · have h := (C5_loader_dispatch_by_extension envW (FileData.mk "notes.txt" [3])
      "sk-test" w0 [{ page_content := "hello world" }] { id := 37 }).2.2
      (by decide) rfl rfl
    simpa using h

/-- C8: Each successful `handle_question` call appends exactly one
`(question, answer)` pair to the session history — the question being the
user's prompt and the answer the retrieval chain's response — leaving all
previously stored pairs unchanged and in order. -/
theorem C8_history_append_only (env : Env) (q key : String) (w : World)
    (c : ConversationalRetrievalChain) (msgs : List ChatMessage)
    (resp : String) (tokens : List String) (content : String)
    (hc : w.session.crc = some c)
    (hm : w.session.messages = some msgs)
    (hr : env.crcRun c q (w.session.history.getD []) = .ok resp)
    (hl : env.llmInvoke
        { model := none, temperature := none, openai_api_key := key, streaming := true }
        msgs = .ok (tokens, content)) :
    (handle_question env q key w).2 = .ok () ∧
    (handle_question env q key w).1.session.history =
      some (w.session.history.getD [] ++ [(q, resp)]) := by
  have h := handle_question_ok env q key w c msgs resp tokens content hc hm hr hl
  exact ⟨by rw [h], by rw [h]⟩

/-- Witness for C8: a question asked in a session whose history already
holds one pair appends exactly the new pair after it. -/
theorem C8_witness :
    (handle_question envW "What does the file say?" "sk-test"
        { wChat with session := { wChat.session with
            history := some [("q0", "a0")] } }).1.session.history =
      some [("q0", "a0"),
            ("What does the file say?", "chain answer to What does the file say?")] := by
  have h := (C8_history_append_only envW "What does the file say?" "sk-test"
    { wChat with session := { wChat.session with history := some [("q0", "a0")] } }
    crc0 [{ role := "assistant", content := "How can I help you?" },
          { role := "user", content := "What does the file say?" }]
    "chain answer to What does the file say?" ["stream", "ed answer"] "streamed answer"
    (by decide) (by decide) rfl rfl).2
  simpa using h

/-- C1 counterexample: in a run of `handle_question` in which every
delegated call succeeds, the text shown by the streaming callback is the
answer of the separate streaming `ChatOpenAI` invocation over the messages
list ("streamed answer"), while the retrieval chain's answer recorded in
history is a different string — so the streamed display is not the chain's
output. -/
theorem C1_counterexample :
    (handle_question envW "What does the file say?" "sk-test" wChat).2 = .ok () ∧
    lastStream (handle_question envW "What does the file say?" "sk-test"
        wChat).1.events = some "streamed answer" ∧
    ((handle_question envW "What does the file say?" "sk-test"
        wChat).1.session.history.getD []).getLast? =
      some ("What does the file say?", "chain answer to What does the file say?") ∧
    ("streamed answer" : String) ≠ "chain answer to What does the file say?" :=
  ⟨rfl, by decide, by decide, by decide⟩

/-- C1 (amended): On a successful `handle_question` call, the text
displayed token-by-token via the streaming callback is the concatenation
of the tokens streamed by a second, fresh `ChatOpenAI(streaming=True)`
invocation over the messages list — not the retrieval chain's output; the
chain's answer is only appended to the session history. -/
theorem C1_streamed_display_is_second_llm_call (env : Env) (q key : String)
    (w : World) (c : ConversationalRetrievalChain) (msgs : List ChatMessage)
    (resp : String) (tokens : List String) (content : String)
    (hc : w.session.crc = some c)
    (hm : w.session.messages = some msgs)
    (hr : env.crcRun c q (w.session.history.getD []) = .ok resp)
    (hl : env.llmInvoke
        { model := none, temperature := none, openai_api_key := key, streaming := true }
        msgs = .ok (tokens, content)) :
    lastStream (handle_question env q key w).1.events = some (catStrings tokens) ∧
    (handle_question env q key w).1.session.history =
      some (w.session.history.getD [] ++ [(q, resp)]) := by
  have h := handle_question_ok env q key w c msgs resp tokens content hc hm hr hl
  constructor
  · rw [h]
    have hsplit :
        w.events ++ [Event.crcRunCall] ++
          msgs.map (fun m => Event.chatDisplay m.role m.content) ++
          [Event.llmInvokeCall,
           Event.streamDisplay ((StreamHandler.init "").feed tokens).text] =
        (w.events ++ [Event.crcRunCall] ++
          msgs.map (fun m => Event.chatDisplay m.role m.content) ++
          [Event.llmInvokeCall]) ++
          [Event.streamDisplay ((StreamHandler.init "").feed tokens).text] := by
      simp
    rw [hsplit, lastStream_snoc]
    rw [feed_text]
    simp [StreamHandler.init]
  · rw [h]

/-- Witness for the amended C1: the streamed display equals the token
concatenation of the second model call. -/
theorem C1_witness :
    lastStream (handle_question envW "What does the file say?" "sk-test"
        wChat).1.events = some (catStrings ["stream", "ed answer"]) ∧
    (handle_question envW "What does the file say?" "sk-test"
        wChat).1.session.history =
      some (wChat.session.history.getD [] ++
        [("What does the file say?",
          "chain answer to What does the file say?")]) :=
  C1_streamed_display_is_second_llm_call envW "What does the file say?" "sk-test"
    wChat crc0
    [{ role := "assistant", content := "How can I help you?" },
     { role := "user", content := "What does the file say?" }]
    "chain answer to What does the file say?" ["stream", "ed answer"]
    "streamed answer" (by decide) (by decide) rfl rfl

/-- C3 counterexample: with the chain run raising and the `history` key
absent, `handle_question` propagates the error but leaves session state
changed — the failed call has created `history` as the empty list. -/
theorem C3_counterexample :
    (handle_question envE "What does the file say?" "sk-test" wChat).2 =
      .error "RateLimitError" ∧
    (handle_question envE "What does the file say?" "sk-test"
        wChat).1.session.history ≠ wChat.session.history :=
  ⟨rfl, by decide⟩

/-- C3 (amended): A raising delegated call propagates uncaught as the
function's error result.  `load_and_process_file` leaves session state
entirely unchanged on any run; a failed chain run in `handle_question`
leaves `crc` and the messages unchanged and appends no history pair, but
first initializes an absent `history` key to the empty list. -/
theorem C3_error_propagation (_ : True) :
    (∀ (env : Env) (f : FileData) (key : String) (w : World),
      (load_and_process_file env f key w).1.session = w.session) ∧
    (∀ (env : Env) (l : Loader) (key : String) (w : World) (e : Err),
      env.loaderLoad l = .error e → (loadRest env l key w).2 = .error e) ∧
    (∀ (env : Env) (l : Loader) (key : String) (w : World)
        (docs : List Document) (e : Err),
      env.loaderLoad l = .ok docs →
      env.chromaFromDocuments (env.splitDocuments 1000 200 docs)
          { openai_api_key := key } = .error e →
      (loadRest env l key w).2 = .error e) ∧
    (∀ (env : Env) (q key : String) (w : World)
        (c : ConversationalRetrievalChain) (e : Err),
      w.session.crc = some c →
      env.crcRun c q (w.session.history.getD []) = .error e →
      (handle_question env q key w).2 = .error e ∧
      (handle_question env q key w).1.session.crc = w.session.crc ∧
      (handle_question env q key w).1.session.history =
        some (w.session.history.getD []) ∧
      (handle_question env q key w).1.session.messages = w.session.messages) := by
  refine ⟨load_session, ?_, ?_, ?_⟩
  · intro env l key w e h
    rw [loadRest_load_error env l key w e h]
  · intro env l key w docs e h1 h2
    rw [loadRest_chroma_error env l key w docs e h1 h2]
  · intro env q key w c e hc hr
    have h := handle_question_crcRun_error env q key w c e hc hr
    exact ⟨by rw [h], by rw [h], by rw [h], by rw [h]⟩

/-- Witness for the amended C3, at concrete raising oracles: the loader
error and the embedding error propagate out of the load pipeline, and a
failed chain run leaves `crc`, history pairs and messages as they were. -/
theorem C3_witness :
    (load_and_process_file envE (FileData.mk "notes.txt" [1]) "sk-test"
        w0).1.session = w0.session ∧
    (loadRest envE (.textLoader "./notes.txt") "sk-test" w0).2 =
      .error "APIError: loader" ∧
    (loadRest envE2 (.textLoader "./notes.txt") "sk-test" w0).2 =
      .error "APIError: embeddings" ∧
    ((handle_question envE "What does the file say?" "sk-test" wChat).2 =
        .error "RateLimitError" ∧
      (handle_question envE "What does the file say?" "sk-test"
          wChat).1.session.crc = wChat.session.crc ∧
      (handle_question envE "What does the file say?" "sk-test"
          wChat).1.session.history = some (wChat.session.history.getD []) ∧
      (handle_question envE "What does the file say?" "sk-test"
          wChat).1.session.messages = wChat.session.messages) :=
  ⟨(C3_error_propagation trivial).1 envE (FileData.mk "notes.txt" [1]) "sk-test" w0,
   (C3_error_propagation trivial).2.1 envE (.textLoader "./notes.txt") "sk-test" w0
     "APIError: loader" rfl,
   (C3_error_propagation trivial).2.2.1 envE2 (.textLoader "./notes.txt") "sk-test"
     w0 [{ page_content := "hello world" }] "APIError: embeddings" rfl rfl,
   (C3_error_propagation trivial).2.2.2 envE "What does the file say?" "sk-test"
     wChat crc0 "RateLimitError" (by decide) rfl⟩

/-- C6 counterexample: after a whole successful script run that uploads
`story.txt`, the copy written to `./story.txt` is still on disk — the
program never removes it, so the copy is not transient. -/
theorem C6_counterexample :
    (mainStep envW (some (FileData.mk "story.txt" [9, 9])) none "sk-test"
        w0).2 = .ok () ∧
    diskLookup (mainStep envW (some (FileData.mk "story.txt" [9, 9])) none
        "sk-test" w0).1.disk "./story.txt" = some [9, 9] :=
  ⟨rfl, by decide⟩

/-- C6 (amended): `load_and_process_file` writes exactly one copy of the
file's bytes, at `./<uploaded name>` (for a non-absolute name), and that
is the only disk write the program ever performs — the chat phase and
`handle_question` never touch the disk; the copy, however, remains on disk
afterwards (the program does not delete it). -/
theorem C6_single_disk_copy (env : Env) (f : FileData) (key : String) (w : World) :
    (load_and_process_file env f key w).1.disk =
      diskStore w.disk (osPathJoin "./" f.name) f.content ∧
    ((load_and_process_file env f key w).1.events).filter isDiskEv =
      w.events.filter isDiskEv ++
        [.diskWrite (osPathJoin "./" f.name) f.content] ∧
    diskLookup (load_and_process_file env f key w).1.disk
      (osPathJoin "./" f.name) = some f.content ∧
    (startswith f.name "/" = false → osPathJoin "./" f.name = "./" ++ f.name) ∧
    (∀ (q : String) (w2 : World), (handle_question env q key w2).1.disk = w2.disk) ∧
    (∀ (prompt : Option String) (w2 : World),
      (mainChatPhase env prompt key w2).1.disk = w2.disk) := by
  refine ⟨load_disk env f key w, load_events_diskFilter env f key w, ?_, ?_, ?_, ?_⟩
  · rw [load_disk]
    simp [diskLookup, diskStore]
  · intro h
    have hE : endswith "./" "/" = true := by decide
    simp [osPathJoin, h, hE]
  · intro q w2
    exact handle_question_disk env q key w2
  · intro prompt w2
    exact mainChatPhase_disk env prompt key w2

/-- Witness for the amended C6 at the upload of `story.txt`. -/
theorem C6_witness :
    (load_and_process_file envW (FileData.mk "story.txt" [9, 9]) "sk-test"
        w0).1.disk = diskStore w0.disk "./story.txt" [9, 9] ∧
    diskLookup (load_and_process_file envW (FileData.mk "story.txt" [9, 9])
        "sk-test" w0).1.disk "./story.txt" = some [9, 9] ∧
    (startswith "story.txt" "/" = false ∧ osPathJoin "./" "story.txt" = "./story.txt") ∧
    (handle_question envW "What does the file say?" "sk-test" wChat).1.disk =
      wChat.disk :=
  ⟨(C6_single_disk_copy envW (FileData.mk "story.txt" [9, 9]) "sk-test" w0).1,
   (C6_single_disk_copy envW (FileData.mk "story.txt" [9, 9]) "sk-test" w0).2.2.1,
   ⟨by decide,
    (C6_single_disk_copy envW (FileData.mk "story.txt" [9, 9]) "sk-test"
      w0).2.2.2.1 (by decide)⟩,
   (C6_single_disk_copy envW (FileData.mk "story.txt" [9, 9]) "sk-test"
     w0).2.2.2.2.1 "What does the file say?" wChat⟩

end InkChat
